import Mathlib

/-!
Verification of the `serializable_log_record` crate (`src/lib.rs`).

The crate converts a transient `log::Record` handle into an owned
`SerializableLogRecord` snapshot and back.  We shallowly embed the
observable fields of the two types and the operations of the crate
(`SerializableLogRecord::new`, `string_to_level`, the two `From`
implementations and the `into_log_record!` macro) as pure Lean functions
and prove the specified properties about them.

The crate delegates severity printing and parsing to the external `log`
crate (`Level::as_str`, `Level::from_str`), whose source is not part of
this repository; those two helpers are modelled from the description in
the spec of the severity string round-trip contract (canonical labels
`ERROR/WARN/INFO/DEBUG/TRACE`, exact match expected).
-/

namespace LogCrate

/-- The severity enumeration of the logging framework (`log::Level`):
Error, Warn, Info, Debug, Trace. -/
inductive Level where
  | Error
  | Warn
  | Info
  | Debug
  | Trace
deriving DecidableEq, Repr

/-- Modelled from the spec: the canonical string form of a severity
(`log::Level::as_str` of the external `log` crate, not part of this
repository); the spec fixes the canonical tokens
{"ERROR","WARN","INFO","DEBUG","TRACE"}. -/
def Level.as_str : Level → String
  | .Error => "ERROR"
  | .Warn => "WARN"
  | .Info => "INFO"
  | .Debug => "DEBUG"
  | .Trace => "TRACE"

/-- Modelled from the spec: the severity parse-from-string contract
(the `FromStr` instance of `log::Level` of the external `log` crate, not part
of this repository): a string that is exactly one of the canonical labels
parses to the corresponding severity, any other string fails to parse. -/
def Level.from_str (s : String) : Option Level :=
  if s = "ERROR" then some .Error
  else if s = "WARN" then some .Warn
  else if s = "INFO" then some .Info
  else if s = "DEBUG" then some .Debug
  else if s = "TRACE" then some .Trace
  else none

/-- The transient log-record handle (`log::Record`), restricted to the
observable fields this crate reads and writes: severity, the formatted
message text (the rendering of `args()`), target, module path, file and
line.  `line` is a `u32` in the source; only copied, never computed on. -/
structure Record where
  level : Level
  args : String
  target : String
  module_path : Option String
  file : Option String
  line : Option Nat
deriving DecidableEq, Repr

end LogCrate

open LogCrate

/-- The owned snapshot type (`SerializableLogRecord`, src/lib.rs lines
64-75): six public fields, `level` stored as a string.  Rust derives
`PartialEq`, `Eq` and `Hash` structurally; `DecidableEq` gives the same
structural equality here. -/
structure SerializableLogRecord where
  level : String
  args : String
  target : String
  module_path : Option String
  file : Option String
  line : Option Nat
deriving DecidableEq, Repr

/-- `SerializableLogRecord::new` (src/lib.rs lines 81-97): stores the
severity as its canonical string form and copies the remaining arguments
verbatim. -/
def SerializableLogRecord.new (level : Level) (args : String) (target : String)
    (module_path : Option String) (file : Option String) (line : Option Nat) :
    SerializableLogRecord :=
  { level := level.as_str
    args := args
    target := target
    module_path := module_path
    file := file
    line := line }

/-- `SerializableLogRecord::string_to_level` (src/lib.rs lines 102-104):
`Level::from_str(level).unwrap_or(Level::Warn)`. -/
def SerializableLogRecord.string_to_level (level : String) : Level :=
  (Level.from_str level).getD Level.Warn

/-- `impl From<&Record> for SerializableLogRecord` (src/lib.rs lines
107-119): `Self::new(record.level(), record.args().to_string(),
record.target().to_owned(), record.module_path().map(str::to_owned),
record.file().map(str::to_owned), record.line())`.  In the embedding
`r.args` is already the rendered message text. -/
def SerializableLogRecord.from_record (r : Record) : SerializableLogRecord :=
  SerializableLogRecord.new r.level r.args r.target r.module_path r.file r.line

/-- `impl From<Record> for SerializableLogRecord` (src/lib.rs lines
121-126): `Self::from(&value)`. -/
def SerializableLogRecord.from_record_value (r : Record) : SerializableLogRecord :=
  SerializableLogRecord.from_record r

/-- The `into_log_record!` macro (src/lib.rs lines 128-142): populates a
`log::Record` builder with `string_to_level(&m.level)`,
`format_args!("{}", m.args)` (which renders back to exactly `m.args`),
`m.target`, `m.module_path`, `m.file` and `m.line`, then builds. -/
def into_log_record (m : SerializableLogRecord) : Record :=
  { level := SerializableLogRecord.string_to_level m.level
    args := m.args
    target := m.target
    module_path := m.module_path
    file := m.file
    line := m.line }

/-- The six-field tuple of a snapshot, in declaration order.  The Rust
`derive(Hash)` feeds exactly these fields, in this order, to the hasher,
so any hash value is a function of this tuple. -/
def SerializableLogRecord.fieldTuple (s : SerializableLogRecord) :
    String × String × String × Option String × Option String × Option Nat :=
  (s.level, s.args, s.target, s.module_path, s.file, s.line)

/-- The list of canonical severity labels. -/
def canonicalLevels : List String := ["ERROR", "WARN", "INFO", "DEBUG", "TRACE"]

/-- A sample hash function on field tuples (length of the first
component), used to instantiate the hash-consistency statement at a
concrete hasher. -/
def tupleFirstLen
    (t : String × String × String × Option String × Option String × Option Nat) : Nat :=
  t.1.length

/-- A sample snapshot value used for concrete instantiations. -/
def sampleSnap : SerializableLogRecord :=
  SerializableLogRecord.mk "INFO" "Hello" "my_target" none (some "lib.rs") (some 10)

/-- A second sample snapshot, differing from `sampleSnap` only in `line`. -/
def sampleSnapLine : SerializableLogRecord :=
  SerializableLogRecord.mk "INFO" "Hello" "my_target" none (some "lib.rs") (some 11)

/-- Parsing the canonical string form of a severity recovers it. -/
lemma Level.from_str_as_str (l : Level) : Level.from_str l.as_str = some l := by
  cases l <;> rfl

/-- C1: for every transient log-record handle, constructing a
`SerializableLogRecord` from it (via `From`) and then rehydrating it with
`into_log_record!` yields a handle whose severity, message text, target,
module path, file and line all equal the corresponding fields of the original handle. -/
theorem C1_snapshot_roundtrip (r : Record) :
    into_log_record (SerializableLogRecord.from_record r) = r := by
  cases r with
  | mk level args target module_path file line =>
    simp only [into_log_record, SerializableLogRecord.from_record,
      SerializableLogRecord.new, SerializableLogRecord.string_to_level,
      Level.from_str_as_str, Option.getD_some]

/-- C2: for every string not among the five exact canonical labels,
`string_to_level` returns the fallback severity `Warn`; the function is
total (returns a `Level`, never an error or failure value). -/
theorem C2_severity_fallback (s : String) (h : s ∉ canonicalLevels) :
    SerializableLogRecord.string_to_level s = Level.Warn := by
  simp only [canonicalLevels, List.mem_cons, List.not_mem_nil, or_false, not_or] at h
  obtain ⟨h1, h2, h3, h4, h5⟩ := h
  simp [SerializableLogRecord.string_to_level, Level.from_str, h1, h2, h3, h4, h5]

/-- Witness for C2 at the concrete input "banana". -/
theorem C2_severity_fallback_witness :
    "banana" ∉ canonicalLevels ∧
      SerializableLogRecord.string_to_level "banana" = Level.Warn :=
  ⟨by decide, C2_severity_fallback "banana" (by decide)⟩

/-- C3: parsing each canonical severity label with `string_to_level`
yields the corresponding severity exactly: for every severity `l`,
`string_to_level l.as_str = l` (the string round-trip on severities). -/
theorem C3_severity_string_roundtrip (l : Level) :
    SerializableLogRecord.string_to_level l.as_str = l := by
  cases l <;> rfl

/-- C4: two snapshots are equal iff all six fields are pairwise equal;
any hash computed from the field tuple (as the Rust `derive(Hash)` does) is
identical on equal snapshots; and if the fields are not all equal the
snapshots are unequal, so changing any one field breaks equality. -/
theorem C4_eq_hash_consistency (a b : SerializableLogRecord)
    (f : String × String × String × Option String × Option String × Option Nat → Nat) :
    (a = b ↔ a.level = b.level ∧ a.args = b.args ∧ a.target = b.target ∧
      a.module_path = b.module_path ∧ a.file = b.file ∧ a.line = b.line) ∧
    (a = b → f a.fieldTuple = f b.fieldTuple) ∧
    (¬(a.level = b.level ∧ a.args = b.args ∧ a.target = b.target ∧
      a.module_path = b.module_path ∧ a.file = b.file ∧ a.line = b.line) → a ≠ b) := by
  constructor
  · cases a; cases b
    simp [SerializableLogRecord.mk.injEq, and_assoc]
  · constructor
    · intro hab
      rw [hab]
    · intro hne hab
      apply hne
      cases a; cases b
      simp_all [SerializableLogRecord.mk.injEq, and_assoc]

/-- Witness for C4: a concrete snapshot and field-tuple hasher; the
equality hypotheses of the second and third conjuncts are discharged at
concrete snapshots (equal ones, and ones differing only in `line`). -/
theorem C4_eq_hash_consistency_witness :
    (sampleSnap = sampleSnap ↔
      sampleSnap.level = sampleSnap.level ∧ sampleSnap.args = sampleSnap.args ∧
        sampleSnap.target = sampleSnap.target ∧
        sampleSnap.module_path = sampleSnap.module_path ∧
        sampleSnap.file = sampleSnap.file ∧ sampleSnap.line = sampleSnap.line) ∧
    tupleFirstLen sampleSnap.fieldTuple = tupleFirstLen sampleSnap.fieldTuple ∧
    sampleSnap ≠ sampleSnapLine :=
  ⟨(C4_eq_hash_consistency sampleSnap sampleSnap tupleFirstLen).1,
   (C4_eq_hash_consistency sampleSnap sampleSnap tupleFirstLen).2.1 rfl,
   (C4_eq_hash_consistency sampleSnap sampleSnapLine tupleFirstLen).2.2 (by decide)⟩

/-- C5: snapshot construction is total — for every handle it produces the
snapshot whose six fields are owned copies of the observable
field values, with no error or failure path; in the pure embedding the
result is a plain value determined solely by those copied field values,
with no remaining link to the input handle. -/
theorem C5_construction_total (r : Record) :
    SerializableLogRecord.from_record r =
      SerializableLogRecord.mk r.level.as_str r.args r.target r.module_path r.file r.line ∧
    SerializableLogRecord.new r.level r.args r.target r.module_path r.file r.line =
      SerializableLogRecord.mk r.level.as_str r.args r.target r.module_path r.file r.line :=
  ⟨rfl, rfl⟩

/-- C6: a handle with module path, file and line all absent produces a
snapshot with those three fields absent; a handle with all three present
produces a snapshot with all three present and equal to those of the handle. -/
theorem C6_optionality_passthrough (r : Record) :
    (r.module_path = none → r.file = none → r.line = none →
      (SerializableLogRecord.from_record r).module_path = none ∧
      (SerializableLogRecord.from_record r).file = none ∧
      (SerializableLogRecord.from_record r).line = none) ∧
    (r.module_path.isSome → r.file.isSome → r.line.isSome →
      (SerializableLogRecord.from_record r).module_path = r.module_path ∧
      (SerializableLogRecord.from_record r).file = r.file ∧
      (SerializableLogRecord.from_record r).line = r.line) :=
  ⟨fun h1 h2 h3 => ⟨h1, h2, h3⟩, fun _ _ _ => ⟨rfl, rfl, rfl⟩⟩

/-- Witness for C6: both arms at concrete handles — one with all three
location fields absent, one with all three present. -/
theorem C6_optionality_passthrough_witness :
    ((SerializableLogRecord.from_record
        (Record.mk Level.Info "Hello" "my_target" none none none)).module_path = none ∧
     (SerializableLogRecord.from_record
        (Record.mk Level.Info "Hello" "my_target" none none none)).file = none ∧
     (SerializableLogRecord.from_record
        (Record.mk Level.Info "Hello" "my_target" none none none)).line = none) ∧
    ((SerializableLogRecord.from_record
        (Record.mk Level.Info "Hello" "my_target" (some "my_mod") (some "lib.rs")
          (some 10))).module_path = some "my_mod" ∧
     (SerializableLogRecord.from_record
        (Record.mk Level.Info "Hello" "my_target" (some "my_mod") (some "lib.rs")
          (some 10))).file = some "lib.rs" ∧
     (SerializableLogRecord.from_record
        (Record.mk Level.Info "Hello" "my_target" (some "my_mod") (some "lib.rs")
          (some 10))).line = some 10) :=
  ⟨(C6_optionality_passthrough
      (Record.mk Level.Info "Hello" "my_target" none none none)).1 rfl rfl rfl,
   (C6_optionality_passthrough
      (Record.mk Level.Info "Hello" "my_target" (some "my_mod") (some "lib.rs")
        (some 10))).2 rfl rfl rfl⟩

/-- C7: snapshotting is deterministic — constructing a snapshot from the
same handle twice yields structurally equal values (the conversion is a
pure field copy with no effects or hidden state). -/
theorem C7_snapshot_deterministic (r : Record) :
    SerializableLogRecord.from_record r = SerializableLogRecord.from_record r := rfl

/-- C8: every snapshot produced by `new` or by `From` has its `level`
field equal to one of the five canonical severity labels. -/
theorem C8_level_always_canonical (l : Level) (args target : String)
    (module_path file : Option String) (line : Option Nat) (r : Record) :
    (SerializableLogRecord.new l args target module_path file line).level ∈
      canonicalLevels ∧
    (SerializableLogRecord.from_record r).level ∈ canonicalLevels := by
  constructor
  · cases l <;> simp [SerializableLogRecord.new, Level.as_str, canonicalLevels]
  · cases hr : r.level <;>
      simp [SerializableLogRecord.from_record, SerializableLogRecord.new, hr,
        Level.as_str, canonicalLevels]

/-- C9: the concrete example scenario — the handle with level Info,
message "Hello", target "my_target", no module path, file "lib.rs", line
10 snapshots to exactly {level="INFO", args="Hello", target="my_target",
module_path=None, file=Some("lib.rs"), line=Some(10)}, and rehydrating
that snapshot restores the observable fields of the original handle. -/
theorem C9_example_scenario :
    SerializableLogRecord.from_record
        (Record.mk Level.Info "Hello" "my_target" none (some "lib.rs") (some 10)) =
      SerializableLogRecord.mk "INFO" "Hello" "my_target" none (some "lib.rs") (some 10) ∧
    into_log_record
        (SerializableLogRecord.mk "INFO" "Hello" "my_target" none (some "lib.rs")
          (some 10)) =
      Record.mk Level.Info "Hello" "my_target" none (some "lib.rs") (some 10) :=
  ⟨rfl, rfl⟩

/-- C10: the by-value conversion `From<Record>` agrees with the
by-reference conversion `From<&Record>` on every handle — the source
implements the former as `Self::from(&value)`. -/
theorem C10_value_ref_agree (r : Record) :
    SerializableLogRecord.from_record_value r = SerializableLogRecord.from_record r := rfl
